import Mathlib

/-!
Verification of the build orchestrator in `src/build.py` (`BuildSystem`).

The Python code is shallowly embedded: the regex library call
`re.search(pat, line, re.IGNORECASE)` is modelled by an oracle
`m : String → String → Bool`, the observable behaviour of the external
world during one `build_project` call (spawn outcome, delivered output
lines, exit code, packaging exceptions, wall-clock timestamp) is an
explicit `Env` record, and the concurrent output pump is a small-step
state machine driven by an explicit scheduler trace.
-/

/-- The twelve error-marker patterns, `BuildSystem.error_markers`
(src/build.py lines 93-106). -/
def error_markers : List String :=
  [ "Build FAILED"
  , "Error\\s+[A-Z]+\\d+"
  , "Could not find a part of the path"
  , "The system cannot find the path specified"
  , "EXEC : error"
  , "ILCompiler error"
  , "Native linking error"
  , "AOT Compilation failed"
  , "Compilation failed for"
  , "MSB\\d+"
  , "NETSDK\\d+"
  , "Exception during compilation:" ]

/-- The ordered progress-marker table, `BuildSystem.progress_markers`
(src/build.py lines 51-91). -/
def progress_markers : List (String × Int) :=
  [ ("Determining projects to restore", 2)
  , ("Restored\\s+[\\w\\s/]+?packages", 5)
  , ("Restored\\s+[\\w\\s/]+?\\.csproj", 8)
  , ("Build started", 10)
  , ("Compiling\\s+[\\w\\s/]+?\\.cs", 12)
  , ("CoreGenerateAssemblyInfo", 14)
  , ("GenerateTargetFrameworkMonikerAttribute", 15)
  , ("CoreCompile target", 18)
  , ("Csc target", 20)
  , ("_InitializeSourceControlInformation", 22)
  , ("GetCopyToOutputDirectoryItems", 25)
  , ("_CopySourceItemsToOutputDirectory", 28)
  , ("CopyFilesToOutputDirectory", 30)
  , ("Build succeeded", 35)
  , ("_InitializeIlcParameters", 38)
  , ("_WriteIlcRspFile", 40)
  , ("IlcCompile target", 42)
  , ("_LinkNative target", 45)
  , ("_CreateIlcDirectory", 48)
  , ("ComputeResolvedFilesToPublishList", 50)
  , ("CopyFilesToPublishDirectory", 52)
  , ("_CopyResolvedFilesToPublishLocal", 55)
  , ("_CopyResolvedFilesToPublishPreserveNewest", 58)
  , ("_DeploymentUnpublishable", 60)
  , ("GenerateNativeImages", 65)
  , ("Optimizing assemblies", 68)
  , ("RunNgeni target", 70)
  , ("ComputeIlToNativePaths", 72)
  , ("_StartupTracker", 75)
  , ("_ResolveCompileToolPaths", 78)
  , ("_ComputeIncrementalInputs", 80)
  , ("_GenerateCrossgenProfilingSymbols", 82)
  , ("_PublishBuildAlternative", 85)
  , ("_PublishNativeImages", 88)
  , ("_GenerateBundle", 90)
  , ("_CreateAppHost", 92)
  , ("Published\\s+[\\w\\s/]+?\\.csproj", 95)
  , ("Generating native code", 97)
  , ("Linking native binary", 98) ]

/-- One step of the highest-progress accumulation inside
`BuildSystem.parse_build_progress` (src/build.py lines 132-137):
`if re.search(pattern, line): if highest is None or percentage > highest:
highest = percentage`.  The regex call is the oracle `m`. -/
def hpStep (m : String → String → Bool) (line : String)
    (acc : Option Int) (pr : String × Int) : Option Int :=
  if m pr.1 line then
    match acc with
    | none => some pr.2
    | some h => if pr.2 > h then some pr.2 else some h
  else acc

/-- `BuildSystem.parse_build_progress` (src/build.py lines 124-138):
every error marker is tested first and any match returns the sentinel -1;
otherwise the highest percentage among matching progress markers is
returned, or `none` when nothing matches. -/
def parse_build_progress (m : String → String → Bool) (line : String) : Option Int :=
  if error_markers.any (fun e => m e line) then some (-1)
  else progress_markers.foldl (hpStep m line) none

theorem hpStep_true_some (m : String → String → Bool) (line : String)
    (pr : String × Int) (h : Int) (hm : m pr.1 line = true) :
    hpStep m line (some h) pr = some (max h pr.2) := by
  simp only [hpStep, hm, if_true]
  split
  · next hlt => rw [max_eq_right (le_of_lt hlt)]
  · next hge => rw [max_eq_left (not_lt.mp hge)]

theorem hpStep_true_none (m : String → String → Bool) (line : String)
    (pr : String × Int) (hm : m pr.1 line = true) :
    hpStep m line none pr = some pr.2 := by
  simp [hpStep, hm]

theorem hpStep_false (m : String → String → Bool) (line : String)
    (pr : String × Int) (acc : Option Int) (hm : m pr.1 line = false) :
    hpStep m line acc pr = acc := by
  simp [hpStep, hm]

theorem foldl_hpStep_some (m : String → String → Bool) (line : String) :
    ∀ (L : List (String × Int)) (h : Int),
      L.foldl (hpStep m line) (some h) =
        some (((L.filter (fun pr => m pr.1 line)).map (·.2)).foldl max h) := by
  intro L
  induction L with
  | nil => intro h; rfl
  | cons pr rest ih =>
    intro h
    cases hm : m pr.1 line with
    | true =>
      rw [List.foldl_cons, hpStep_true_some m line pr h hm, ih]
      simp [List.filter_cons, hm]
    | false =>
      rw [List.foldl_cons, hpStep_false m line pr (some h) hm, ih]
      simp [List.filter_cons, hm]

theorem foldl_hpStep_none (m : String → String → Bool) (line : String) :
    ∀ L : List (String × Int),
      L.foldl (hpStep m line) none =
        match (L.filter (fun pr => m pr.1 line)).map (·.2) with
        | [] => none
        | a :: as => some (as.foldl max a) := by
  intro L
  induction L with
  | nil => rfl
  | cons pr rest ih =>
    cases hm : m pr.1 line with
    | true =>
      rw [List.foldl_cons, hpStep_true_none m line pr hm, foldl_hpStep_some]
      simp [List.filter_cons, hm]
    | false =>
      rw [List.foldl_cons, hpStep_false m line pr none hm, ih]
      simp [List.filter_cons, hm]

theorem foldl_max_mem : ∀ (l : List Int) (a : Int),
    l.foldl max a = a ∨ l.foldl max a ∈ l := by
  intro l
  induction l with
  | nil => intro a; exact Or.inl rfl
  | cons b bs ih =>
    intro a
    rcases ih (max a b) with h | h
    · rcases max_choice a b with hm | hm
      · exact Or.inl (by rw [List.foldl_cons, h, hm])
      · exact Or.inr (by rw [List.foldl_cons, h, hm]; exact List.mem_cons_self b bs)
    · exact Or.inr (List.mem_cons_of_mem b h)

theorem le_foldl_max : ∀ (l : List Int) (a : Int), a ≤ l.foldl max a := by
  intro l
  induction l with
  | nil => intro a; exact le_refl a
  | cons b bs ih =>
    intro a
    exact le_trans (le_max_left a b) (ih (max a b))

theorem foldl_max_ub : ∀ (l : List Int) (a q : Int), q ∈ l → q ≤ l.foldl max a := by
  intro l
  induction l with
  | nil => intro a q hq; cases hq
  | cons b bs ih =>
    intro a q hq
    rcases List.mem_cons.mp hq with h | h
    · subst h
      exact le_trans (le_max_right a q) (le_foldl_max bs (max a q))
    · exact ih (max a b) q h

/-- C3 (confirmed): for every regex oracle and every line, if at least one
error pattern matches the line, `parse_build_progress` returns the error
sentinel -1, never a percentage, regardless of which progress patterns also
match: the error table is tested before any progress pattern and a single
match suffices. -/
theorem C3_error_priority (m : String → String → Bool) (line : String)
    (h : error_markers.any (fun e => m e line) = true) :
    parse_build_progress m line = some (-1) := by
  simp [parse_build_progress, h]

/-- Oracle for the C3 witness: every pattern matches every line, so the
witness line matches both error patterns and progress patterns. -/
def mC3 : String → String → Bool := fun _ _ => true

theorem C3_witness :
    (error_markers.any (fun e => mC3 e "Build FAILED") = true) ∧
    (progress_markers.any (fun pr => mC3 pr.1 "Build FAILED") = true) ∧
    parse_build_progress mC3 "Build FAILED" = some (-1) :=
  ⟨rfl, rfl, C3_error_priority mC3 "Build FAILED" rfl⟩

/-- C8 (confirmed): for every line matching no error pattern and at least one
progress pattern, `parse_build_progress` returns the maximum percentage among
all matching progress markers, not the percentage of the first matching
marker in table order. -/
theorem C8_max_of_matches (m : String → String → Bool) (line : String)
    (hne : error_markers.any (fun e => m e line) = false)
    (hm : (progress_markers.filter (fun pr => m pr.1 line)).map (·.2) ≠ []) :
    ∃ p, parse_build_progress m line = some p ∧
      p ∈ (progress_markers.filter (fun pr => m pr.1 line)).map (·.2) ∧
      ∀ q ∈ (progress_markers.filter (fun pr => m pr.1 line)).map (·.2), q ≤ p := by
  have hp : parse_build_progress m line =
      match (progress_markers.filter (fun pr => m pr.1 line)).map (·.2) with
      | [] => none
      | a :: as => some (as.foldl max a) := by
    simp only [parse_build_progress, hne, Bool.false_eq_true, if_false]
    exact foldl_hpStep_none m line progress_markers
  cases hms : (progress_markers.filter (fun pr => m pr.1 line)).map (·.2) with
  | nil => exact absurd hms hm
  | cons a as =>
    rw [hms] at hp
    refine ⟨as.foldl max a, hp, ?_, ?_⟩
    · rcases foldl_max_mem as a with h | h
      · rw [h]; exact List.mem_cons_self a as
      · exact List.mem_cons_of_mem a h
    · intro q hq
      rcases List.mem_cons.mp hq with h | h
      · subst h; exact le_foldl_max as q
      · exact foldl_max_ub as a q h

/-- Oracle for the C8 witness: exactly the first progress marker (2) and the
fourth (10) match, so the maximum 10 differs from the first match 2. -/
def mC8 : String → String → Bool :=
  fun pat _ => pat == "Determining projects to restore" || pat == "Build started"

theorem C8_witness :
    (error_markers.any (fun e => mC8 e "restore then start") = false) ∧
    ((progress_markers.filter (fun pr => mC8 pr.1 "restore then start")).map (·.2)
      = [2, 10]) ∧
    parse_build_progress mC8 "restore then start" = some 10 ∧
    (∃ p, parse_build_progress mC8 "restore then start" = some p ∧
      p ∈ (progress_markers.filter (fun pr => mC8 pr.1 "restore then start")).map (·.2) ∧
      ∀ q ∈ (progress_markers.filter
        (fun pr => mC8 pr.1 "restore then start")).map (·.2), q ≤ p) :=
  ⟨by decide, by decide, by decide,
    C8_max_of_matches mC8 "restore then start" (by decide) (by decide)⟩

/-- `BuildSystem.runtimes` (src/build.py lines 32-36), as an association
list standing for the Python dict. -/
def runtimes : List (String × String) :=
  [("windows", "win"), ("linux", "linux"), ("osx", "osx")]

/-- `BuildSystem.platforms` (src/build.py lines 26-30). -/
def platforms : List (String × List String) :=
  [("windows", ["x64", "x86", "arm64"]), ("linux", ["x64", "arm64"]),
   ("osx", ["x64", "arm64"])]

/-- `BuildSystem.get_runtime_id` (src/build.py lines 108-109).  The Python
dict subscript raises `KeyError` for an unknown platform name; that
exception is the `.error` case. -/
def get_runtime_id (os_name arch : String) : Except String String :=
  match List.lookup os_name runtimes with
  | some tag => .ok (tag ++ "-" ++ arch)
  | none => .error ("KeyError: " ++ os_name)

/-- One on-disk build log, as written by `BuildSystem.create_build_log`
(src/build.py lines 111-122). -/
structure LogRecord where
  fileName : String
  content : String
deriving DecidableEq

/-- The log file name `build_{os_name}_{arch}_{timestamp}.log`
(src/build.py lines 113-116). -/
def log_file_name (os_name arch timestamp : String) : String :=
  "build_" ++ os_name ++ "_" ++ arch ++ "_" ++ timestamp ++ ".log"

/-- `BuildSystem.create_build_log` (src/build.py lines 111-122): the file is
opened with mode w (truncating any file of the same name) and receives a
header followed by the full output.  The wall-clock timestamp
`datetime.now().strftime` is an explicit argument. -/
def create_build_log (os_name arch : String) (success : Bool) (output : String)
    (timestamp : String) : LogRecord :=
  { fileName := log_file_name os_name arch timestamp
  , content := "Build for " ++ os_name ++ "-" ++ arch ++ "\n" ++
      "Status: " ++ (if success then "Success" else "Failed") ++ "\n" ++
      "=== Build Output ===\n" ++ output }

/-- The external-world behaviour observed by one `build_project` call:
the regex oracle, the outcome of `shutil.rmtree`/`subprocess.Popen`
(`spawnError`), the merged line sequence delivered by the output pump,
the process exit code, the outcome of `shutil.make_archive` for each
archive kind, and the timestamp used for the log name. -/
structure Env where
  rmatch : String → String → Bool
  spawnError : Option String
  lines : List String
  returncode : Int
  zipError : Option String
  tarballError : Option String
  timestamp : String

/-- Python `str.strip()` with no argument (used at src/build.py line 194):
removes leading and trailing whitespace. -/
def pyStrip (s : String) : String :=
  ⟨((s.data.dropWhile Char.isWhitespace).reverse.dropWhile Char.isWhitespace).reverse⟩

/-- Python `str.lower()` (used at src/build.py line 215 for the config). -/
def pyLower (s : String) : String := ⟨s.data.map Char.toLower⟩

/-- Python `sep.join(items)` (used at src/build.py line 224). -/
def pyJoin (sep : String) : List String → String
  | [] => ""
  | s :: ss => ss.foldl (fun acc t => acc ++ sep ++ t) s

/-- The mutable state of the line-consuming loop in
`BuildSystem.build_project` (src/build.py lines 170-204): the accumulated
`output` list, `last_progress`, and the trace of
`progress_callback(line, percentage)` invocations. -/
structure LoopState where
  output : List String
  last_progress : Int
  calls : List (String × Int)
deriving DecidableEq

/-- Processing of one dequeued line (src/build.py lines 194-204):
`line = line.strip(); output.append(line)`, then, only when a progress
callback was supplied, the line is classified and the callback invoked:
an error line reports the unchanged `last_progress` with an `Error:`
prefix, a progress line first raises `last_progress` to
`max(last_progress, progress)`, and an unclassified line reports the
unchanged `last_progress`. -/
def processLine (m : String → String → Bool) (hasCallback : Bool)
    (s : LoopState) (raw : String) : LoopState :=
  let line := pyStrip raw
  let s1 : LoopState := { s with output := s.output ++ [line] }
  if hasCallback then
    match parse_build_progress m line with
    | some p =>
      if p = -1 then
        { s1 with calls := s1.calls ++ [("Error: " ++ line, s1.last_progress)] }
      else
        let lp := max s1.last_progress p
        { s1 with last_progress := lp, calls := s1.calls ++ [(line, lp)] }
    | none => { s1 with calls := s1.calls ++ [(line, s1.last_progress)] }
  else s1

/-- The whole consuming loop over the delivered lines, starting from
`output = []`, `last_progress = 0` (src/build.py lines 170-204). -/
def processLines (m : String → String → Bool) (hasCallback : Bool)
    (lines : List String) : LoopState :=
  lines.foldl (processLine m hasCallback) ⟨[], 0, []⟩

/-- The result of one `build_project` call that did not raise: the returned
`(success, output)` pair plus the observable effect trace — callback
invocations, `make_archive` invocations (`archiveCalls`), archives actually
produced (`archives`), and log records written. -/
structure BuildResult where
  success : Bool
  fullOutput : String
  calls : List (String × Int)
  archiveCalls : List String
  archives : List String
  logs : List LogRecord
deriving DecidableEq

/-- The argument vector built at src/build.py lines 149-160 (passed to
`subprocess.Popen`; its effect on the child process is part of `Env`). -/
def build_cmd (project_path output_path config runtime : String)
    (standalone : Bool) : List String :=
  [ "dotnet", "publish", project_path ++ "/" ++ "RPG.csproj"
  , "-c", config, "-r", runtime, "-o", output_path
  , if standalone then "--self-contained" else "--no-self-contained"
  , "/p:PublishSingleFile=true", "/p:EnableCompressionInSingleFile=true"
  , "/p:DebugType=None", "/p:DebugSymbols=false" ]

/-- `BuildSystem.build_project` (src/build.py lines 140-231).
`get_runtime_id` runs before the `try` block, so its `KeyError` propagates
as `.error`; every exception inside the `try` (spawn failure, packaging
failure) is caught by the `except` clause, which logs and returns
`(False, str(e))`.  `hasCallback` models whether `progress_callback` is
`None`; the callback itself is modelled as pure observation (its return
value is ignored by the code), so its invocations are recorded as a trace.
Packaging: `success = (returncode == 0)`; only then is `make_archive`
invoked — `create_zip` when the platform is windows, `create_tarball`
otherwise — preceded by a callback report at the fixed percentage 95 and
followed by one at 100. -/
def build_project (env : Env) (os_name arch config : String)
    (standalone hasCallback : Bool) : Except String BuildResult :=
  match get_runtime_id os_name arch with
  | .error e => .error e
  | .ok _ =>
    match env.spawnError with
    | some e =>
      .ok { success := false, fullOutput := e, calls := [], archiveCalls := []
          , archives := []
          , logs := [create_build_log os_name arch false e env.timestamp] }
    | none =>
      let st := processLines env.rmatch hasCallback env.lines
      if env.returncode = 0 then
        let calls1 := if hasCallback then
            st.calls ++ [("Creating distribution package...", 95)]
          else st.calls
        let archive_name :=
          "RPG-" ++ os_name ++ "-" ++ arch ++ "-" ++ pyLower config
        match (if os_name = "windows" then env.zipError else env.tarballError) with
        | some e =>
          .ok { success := false, fullOutput := e, calls := calls1
              , archiveCalls := [archive_name], archives := []
              , logs := [create_build_log os_name arch false e env.timestamp] }
        | none =>
          let full_output := pyJoin "\n" st.output
          .ok { success := true, fullOutput := full_output
              , calls := if hasCallback then
                  calls1 ++ [("Build complete", 100)] else calls1
              , archiveCalls := [archive_name], archives := [archive_name]
              , logs := [create_build_log os_name arch true full_output env.timestamp] }
      else
        let full_output := pyJoin "\n" st.output
        .ok { success := false, fullOutput := full_output, calls := st.calls
            , archiveCalls := [], archives := []
            , logs := [create_build_log os_name arch false full_output env.timestamp] }

theorem build_project_keyerr (env : Env) (os_name arch config : String)
    (standalone hc : Bool) (hlk : List.lookup os_name runtimes = none) :
    build_project env os_name arch config standalone hc =
      .error ("KeyError: " ++ os_name) := by
  unfold build_project get_runtime_id
  rw [hlk]

theorem build_project_spawn_err (env : Env) (os_name arch config : String)
    (standalone hc : Bool) (tag e : String)
    (hlk : List.lookup os_name runtimes = some tag)
    (hsp : env.spawnError = some e) :
    build_project env os_name arch config standalone hc =
      .ok { success := false, fullOutput := e, calls := [], archiveCalls := []
          , archives := []
          , logs := [create_build_log os_name arch false e env.timestamp] } := by
  unfold build_project get_runtime_id
  rw [hlk, hsp]

theorem build_project_pack_err (env : Env) (os_name arch config : String)
    (standalone hc : Bool) (tag e : String)
    (hlk : List.lookup os_name runtimes = some tag)
    (hsp : env.spawnError = none) (h0 : env.returncode = 0)
    (hae : (if os_name = "windows" then env.zipError else env.tarballError) = some e) :
    build_project env os_name arch config standalone hc =
      .ok { success := false, fullOutput := e
          , calls := if hc then
              (processLines env.rmatch hc env.lines).calls ++
                [("Creating distribution package...", 95)]
            else (processLines env.rmatch hc env.lines).calls
          , archiveCalls := ["RPG-" ++ os_name ++ "-" ++ arch ++ "-" ++ pyLower config]
          , archives := []
          , logs := [create_build_log os_name arch false e env.timestamp] } := by
  unfold build_project get_runtime_id
  rw [hlk, hsp, if_pos h0, hae]

theorem build_project_ok (env : Env) (os_name arch config : String)
    (standalone hc : Bool) (tag : String)
    (hlk : List.lookup os_name runtimes = some tag)
    (hsp : env.spawnError = none) (h0 : env.returncode = 0)
    (hae : (if os_name = "windows" then env.zipError else env.tarballError) = none) :
    build_project env os_name arch config standalone hc =
      .ok { success := true
          , fullOutput := pyJoin "\n" (processLines env.rmatch hc env.lines).output
          , calls := if hc then
              ((processLines env.rmatch hc env.lines).calls ++
                [("Creating distribution package...", 95)]) ++ [("Build complete", 100)]
            else (processLines env.rmatch hc env.lines).calls
          , archiveCalls := ["RPG-" ++ os_name ++ "-" ++ arch ++ "-" ++ pyLower config]
          , archives := ["RPG-" ++ os_name ++ "-" ++ arch ++ "-" ++ pyLower config]
          , logs := [create_build_log os_name arch true
              (pyJoin "\n" (processLines env.rmatch hc env.lines).output) env.timestamp] } := by
  cases hc with
  | false =>
    unfold build_project get_runtime_id
    rw [hlk, hsp, if_pos h0, hae]
    rfl
  | true =>
    unfold build_project get_runtime_id
    rw [hlk, hsp, if_pos h0, hae]
    rfl

theorem build_project_fail (env : Env) (os_name arch config : String)
    (standalone hc : Bool) (tag : String)
    (hlk : List.lookup os_name runtimes = some tag)
    (hsp : env.spawnError = none) (h0 : ¬ env.returncode = 0) :
    build_project env os_name arch config standalone hc =
      .ok { success := false
          , fullOutput := pyJoin "\n" (processLines env.rmatch hc env.lines).output
          , calls := (processLines env.rmatch hc env.lines).calls
          , archiveCalls := [], archives := []
          , logs := [create_build_log os_name arch false
              (pyJoin "\n" (processLines env.rmatch hc env.lines).output) env.timestamp] } := by
  unfold build_project get_runtime_id
  rw [hlk, hsp, if_neg h0]

theorem processLine_output (m : String → String → Bool) (hc : Bool)
    (s : LoopState) (raw : String) :
    (processLine m hc s raw).output = s.output ++ [pyStrip raw] := by
  cases hc with
  | false => rfl
  | true =>
    simp only [processLine]
    cases parse_build_progress m (pyStrip raw) with
    | none => rfl
    | some p =>
      by_cases hp : p = -1
      · simp [hp]
      · simp [hp]

theorem processLines_go_output (m : String → String → Bool) (hc : Bool) :
    ∀ (lines : List String) (s : LoopState),
      (lines.foldl (processLine m hc) s).output = s.output ++ lines.map pyStrip := by
  intro lines
  induction lines with
  | nil => intro s; simp
  | cons l ls ih =>
    intro s
    rw [List.foldl_cons, ih, processLine_output, List.map_cons, List.append_assoc]
    rfl

/-- C10 (confirmed): the progress callback is pure observation.  For the
same external behaviour `env`, running `build_project` with a (never
raising) callback and with `progress_callback=None` returns the same
`(success, full_output)` pair: the callback cannot influence the recorded
result or output text.  In the code the callback return value is ignored
and `last_progress` feeds only callback arguments, so only the invocation
trace differs. -/
theorem C10_callback_noninterference (env : Env) (os_name arch config : String)
    (standalone : Bool) :
    (build_project env os_name arch config standalone true).map
        (fun r => (r.success, r.fullOutput)) =
      (build_project env os_name arch config standalone false).map
        (fun r => (r.success, r.fullOutput)) := by
  have hout : (processLines env.rmatch true env.lines).output =
      (processLines env.rmatch false env.lines).output := by
    unfold processLines
    rw [processLines_go_output, processLines_go_output]
  cases hlk : List.lookup os_name runtimes with
  | none =>
    rw [build_project_keyerr env os_name arch config standalone true hlk,
      build_project_keyerr env os_name arch config standalone false hlk]
  | some tag =>
    cases hsp : env.spawnError with
    | some e =>
      rw [build_project_spawn_err env os_name arch config standalone true tag e hlk hsp,
        build_project_spawn_err env os_name arch config standalone false tag e hlk hsp]
    | none =>
      by_cases h0 : env.returncode = 0
      · cases hae : (if os_name = "windows" then env.zipError else env.tarballError) with
        | some e =>
          rw [build_project_pack_err env os_name arch config standalone true tag e hlk hsp h0 hae,
            build_project_pack_err env os_name arch config standalone false tag e hlk hsp h0 hae]
          rfl
        | none =>
          rw [build_project_ok env os_name arch config standalone true tag hlk hsp h0 hae,
            build_project_ok env os_name arch config standalone false tag hlk hsp h0 hae, hout]
          rfl
      · rw [build_project_fail env os_name arch config standalone true tag hlk hsp h0,
          build_project_fail env os_name arch config standalone false tag hlk hsp h0, hout]
        rfl

/-- C1 (corrected): when the process is spawned and exits, and packaging
does not itself raise, the returned success flag is true exactly when the
exit code is 0 — independent of the regex oracle, of how many error-marker
matches occurred in `env.lines`, and of the progress percentage reached.
The original claim fails only when the exit code is 0 and packaging then
raises: the `except` clause converts the attempt to a failed result (see
the counterexample). -/
theorem C1_success_iff_exit_zero (env : Env) (os_name arch config : String)
    (standalone hc : Bool) (tag : String)
    (hlk : List.lookup os_name runtimes = some tag)
    (hsp : env.spawnError = none)
    (hpk : env.returncode = 0 →
      (if os_name = "windows" then env.zipError else env.tarballError) = none) :
    ∃ r, build_project env os_name arch config standalone hc = .ok r ∧
      (r.success = true ↔ env.returncode = 0) := by
  by_cases h0 : env.returncode = 0
  · exact ⟨_, build_project_ok env os_name arch config standalone hc tag hlk hsp h0 (hpk h0),
      by simp [h0]⟩
  · exact ⟨_, build_project_fail env os_name arch config standalone hc tag hlk hsp h0,
      by simp [h0]⟩

/-- Environment for the C1 witness: exit code 0, many lines, no failures. -/
def envC1W : Env :=
  { rmatch := fun _ _ => true, spawnError := none
  , lines := ["Build FAILED", "Error CS1009"], returncode := 0
  , zipError := none, tarballError := none, timestamp := "20250102_080000" }

theorem C1_witness :
    List.lookup "linux" runtimes = some "linux" ∧
    envC1W.spawnError = none ∧
    (∃ r, build_project envC1W "linux" "x64" "Release" true true = .ok r ∧
      (r.success = true ↔ envC1W.returncode = 0)) :=
  ⟨rfl, rfl,
    C1_success_iff_exit_zero envC1W "linux" "x64" "Release" true true "linux" rfl rfl
      (fun _ => rfl)⟩

/-- Environment for the C1 counterexample: exit code 0 but `create_zip`
raises, so the caught exception yields a failed result although the
process exit code was 0. -/
def envC1X : Env :=
  { rmatch := fun _ _ => true, spawnError := none, lines := ["Error CS1009"]
  , returncode := 0, zipError := some "Permission denied", tarballError := none
  , timestamp := "20250102_080000" }

theorem C1_counterexample :
    envC1X.returncode = 0 ∧
    (build_project envC1X "windows" "x64" "Release" true true).map
      BuildResult.success = .ok false :=
  ⟨rfl, rfl⟩

/-- C4 (corrected): when the exit code is 0 and archive creation raises,
the attempt is nevertheless recorded as Failed — the `except` clause
catches the packaging exception, the returned pair is
`(False, str(exception))`, no archive is produced, and the log records
Failed.  The original claim (recorded success must stay true) is the
opposite resolution of the ambiguity and is refuted by the
counterexample. -/
theorem C4_packaging_failure_flips_success (env : Env)
    (os_name arch config : String) (standalone hc : Bool) (tag e : String)
    (hlk : List.lookup os_name runtimes = some tag)
    (hsp : env.spawnError = none) (h0 : env.returncode = 0)
    (hae : (if os_name = "windows" then env.zipError else env.tarballError) = some e) :
    ∃ r, build_project env os_name arch config standalone hc = .ok r ∧
      r.success = false ∧ r.fullOutput = e ∧ r.archives = [] ∧
      r.logs = [create_build_log os_name arch false e env.timestamp] :=
  ⟨_, build_project_pack_err env os_name arch config standalone hc tag e hlk hsp h0 hae,
    rfl, rfl, rfl, rfl⟩

/-- Environment for C4: exit code 0, `create_zip` raises with message
boom. -/
def envC4X : Env :=
  { rmatch := fun _ _ => false, spawnError := none, lines := ["Build succeeded"]
  , returncode := 0, zipError := some "boom", tarballError := none
  , timestamp := "20250102_090000" }

theorem C4_counterexample :
    envC4X.returncode = 0 ∧ envC4X.zipError = some "boom" ∧
    (build_project envC4X "windows" "x64" "Release" true false).map
      (fun r => (r.success, r.fullOutput)) = .ok (false, "boom") :=
  ⟨rfl, rfl, rfl⟩

theorem C4_witness :
    List.lookup "windows" runtimes = some "win" ∧
    envC4X.spawnError = none ∧ envC4X.returncode = 0 ∧
    (if "windows" = "windows" then envC4X.zipError else envC4X.tarballError)
      = some "boom" ∧
    (∃ r, build_project envC4X "windows" "x64" "Release" true false = .ok r ∧
      r.success = false ∧ r.fullOutput = "boom" ∧ r.archives = [] ∧
      r.logs = [create_build_log "windows" "x64" false "boom" envC4X.timestamp]) :=
  ⟨rfl, rfl, rfl, rfl,
    C4_packaging_failure_flips_success envC4X "windows" "x64" "Release" true false
      "win" "boom" rfl rfl rfl rfl⟩

/-- C5 (confirmed): for every attempt that returns a result,
`make_archive` is invoked (via `create_zip` on windows, `create_tarball`
otherwise) exactly when the success flag computed from the exit code is
true (the spawn succeeded and the exit code is 0), and an archive is
actually produced exactly when the returned success flag is true; in
particular a failed attempt produces no archive. -/
theorem C5_archive_iff_success (env : Env) (os_name arch config : String)
    (standalone hc : Bool) (r : BuildResult)
    (h : build_project env os_name arch config standalone hc = .ok r) :
    ((r.archiveCalls ≠ []) ↔ (env.spawnError = none ∧ env.returncode = 0)) ∧
      ((r.archives ≠ []) ↔ r.success = true) := by
  cases hlk : List.lookup os_name runtimes with
  | none =>
    rw [build_project_keyerr env os_name arch config standalone hc hlk] at h
    exact Except.noConfusion h
  | some tag =>
    cases hsp : env.spawnError with
    | some e =>
      rw [build_project_spawn_err env os_name arch config standalone hc tag e hlk hsp] at h
      obtain rfl : r = _ := (Except.ok.inj h).symm
      simp [hsp]
    | none =>
      by_cases h0 : env.returncode = 0
      · cases hae : (if os_name = "windows" then env.zipError else env.tarballError) with
        | some e =>
          rw [build_project_pack_err env os_name arch config standalone hc tag e
            hlk hsp h0 hae] at h
          obtain rfl : r = _ := (Except.ok.inj h).symm
          simp [hsp, h0]
        | none =>
          rw [build_project_ok env os_name arch config standalone hc tag hlk hsp h0 hae] at h
          obtain rfl : r = _ := (Except.ok.inj h).symm
          simp [hsp, h0]
      · rw [build_project_fail env os_name arch config standalone hc tag hlk hsp h0] at h
        obtain rfl : r = _ := (Except.ok.inj h).symm
        simp [hsp, h0]

/-- Environment and result for the C5 witness. -/
def envC5W : Env :=
  { rmatch := fun _ _ => false, spawnError := none, lines := ["Build succeeded"]
  , returncode := 0, zipError := none, tarballError := none
  , timestamp := "20250103_000000" }

/-- The result of `build_project envC5W "linux" "x64" "Release" true false`. -/
def resC5W : BuildResult :=
  { success := true, fullOutput := "Build succeeded", calls := []
  , archiveCalls := ["RPG-linux-x64-release"], archives := ["RPG-linux-x64-release"]
  , logs := [{ fileName := "build_linux_x64_20250103_000000.log"
             , content := "Build for linux-x64\nStatus: Success\n=== Build Output ===\nBuild succeeded" }] }

theorem C5_witness :
    build_project envC5W "linux" "x64" "Release" true false = .ok resC5W ∧
    ((resC5W.archiveCalls ≠ []) ↔ (envC5W.spawnError = none ∧ envC5W.returncode = 0)) ∧
    ((resC5W.archives ≠ []) ↔ resC5W.success = true) :=
  ⟨rfl, C5_archive_iff_success envC5W "linux" "x64" "Release" true false resC5W rfl⟩

/-- C6 (corrected): once the runtime identifier is derived (supported
platform), `build_project` always returns a result — every exception
inside the `try` block, in particular a spawn failure, is caught and
converted to `(False, captured error text)` with a Failed log.  The
original claim fails for the unsupported-platform case: the
`runtimes[os_name]` lookup runs before the `try` block, so its `KeyError`
propagates to the caller (see the counterexample). -/
theorem C6_exceptions_caught (env : Env) (os_name arch config : String)
    (standalone hc : Bool) (tag : String)
    (hlk : List.lookup os_name runtimes = some tag) :
    (∃ r, build_project env os_name arch config standalone hc = .ok r) ∧
      (∀ e, env.spawnError = some e →
        build_project env os_name arch config standalone hc =
          .ok { success := false, fullOutput := e, calls := []
              , archiveCalls := [], archives := []
              , logs := [create_build_log os_name arch false e env.timestamp] }) := by
  constructor
  · cases hsp : env.spawnError with
    | some e =>
      exact ⟨_, build_project_spawn_err env os_name arch config standalone hc tag e hlk hsp⟩
    | none =>
      by_cases h0 : env.returncode = 0
      · cases hae : (if os_name = "windows" then env.zipError else env.tarballError) with
        | some e =>
          exact ⟨_, build_project_pack_err env os_name arch config standalone hc tag e
            hlk hsp h0 hae⟩
        | none =>
          exact ⟨_, build_project_ok env os_name arch config standalone hc tag hlk hsp h0 hae⟩
      · exact ⟨_, build_project_fail env os_name arch config standalone hc tag hlk hsp h0⟩
  · intro e hsp
    exact build_project_spawn_err env os_name arch config standalone hc tag e hlk hsp

/-- Environment for the C6 counterexample: nothing fails, but the platform
name freebsd is not a key of `runtimes`. -/
def envC6X : Env :=
  { rmatch := fun _ _ => false, spawnError := none, lines := [], returncode := 0
  , zipError := none, tarballError := none, timestamp := "20250102_100000" }

theorem C6_counterexample :
    build_project envC6X "freebsd" "x64" "Release" true true =
      .error ("KeyError: " ++ "freebsd") := rfl

/-- Environment for the C6 witness: `subprocess.Popen` raises. -/
def envC6W : Env :=
  { rmatch := fun _ _ => false
  , spawnError := some "No such file or directory: dotnet"
  , lines := [], returncode := 1, zipError := none, tarballError := none
  , timestamp := "20250102_110000" }

theorem C6_witness :
    List.lookup "osx" runtimes = some "osx" ∧
    (∃ r, build_project envC6W "osx" "arm64" "Debug" false false = .ok r) ∧
    build_project envC6W "osx" "arm64" "Debug" false false =
      .ok { success := false, fullOutput := "No such file or directory: dotnet"
          , calls := [], archiveCalls := [], archives := []
          , logs := [create_build_log "osx" "arm64" false
              "No such file or directory: dotnet" envC6W.timestamp] } :=
  ⟨rfl, (C6_exceptions_caught envC6W "osx" "arm64" "Debug" false false "osx" rfl).1,
    (C6_exceptions_caught envC6W "osx" "arm64" "Debug" false false "osx" rfl).2 _ rfl⟩

theorem string_data_append (a b : String) : (a ++ b).data = a.data ++ b.data := rfl

theorem log_file_name_inj (os_name arch t1 t2 : String)
    (h : log_file_name os_name arch t1 = log_file_name os_name arch t2) :
    t1 = t2 := by
  obtain ⟨d1⟩ := t1
  obtain ⟨d2⟩ := t2
  have hd := congrArg String.data h
  simp only [log_file_name, string_data_append] at hd
  have h1 := List.append_cancel_right hd
  have h2 := List.append_cancel_left h1
  rw [h2]

/-- C9 (corrected): every `build_project` call on a supported platform
writes exactly one log record — on the success path, the nonzero-exit
path, and both exception paths — and the log file name is injective in
the timestamp, so attempts with distinct timestamps write distinct files.
The original claim fails in two ways shown by the counterexample: a call
with an unsupported platform raises before the `try` block and writes no
log at all, and two attempts within the same second share the same file
name (mode w truncates, so the second overwrites the first instead of
each attempt keeping its own file — contents are never combined). -/
theorem C9_one_log_per_attempt (env : Env) (os_name arch config : String)
    (standalone hc : Bool) (tag : String)
    (hlk : List.lookup os_name runtimes = some tag) :
    (∃ r, build_project env os_name arch config standalone hc = .ok r ∧
      r.logs.length = 1) ∧
      (∀ t1 t2 : String, t1 ≠ t2 →
        log_file_name os_name arch t1 ≠ log_file_name os_name arch t2) := by
  constructor
  · cases hsp : env.spawnError with
    | some e =>
      exact ⟨_, build_project_spawn_err env os_name arch config standalone hc tag e hlk hsp,
        rfl⟩
    | none =>
      by_cases h0 : env.returncode = 0
      · cases hae : (if os_name = "windows" then env.zipError else env.tarballError) with
        | some e =>
          exact ⟨_, build_project_pack_err env os_name arch config standalone hc tag e
            hlk hsp h0 hae, rfl⟩
        | none =>
          exact ⟨_, build_project_ok env os_name arch config standalone hc tag hlk hsp h0 hae,
            rfl⟩
      · exact ⟨_, build_project_fail env os_name arch config standalone hc tag hlk hsp h0, rfl⟩
  · intro t1 t2 hne heq
    exact hne (log_file_name_inj os_name arch t1 t2 heq)

/-- First attempt for the C9 counterexample. -/
def envC9A : Env :=
  { rmatch := fun _ _ => false, spawnError := none, lines := ["first attempt output"]
  , returncode := 1, zipError := none, tarballError := none
  , timestamp := "20250102_120000" }

/-- Second attempt for the same target within the same second: same
timestamp string, different output. -/
def envC9B : Env :=
  { rmatch := fun _ _ => false, spawnError := none, lines := ["second attempt output"]
  , returncode := 1, zipError := none, tarballError := none
  , timestamp := "20250102_120000" }

theorem C9_counterexample :
    build_project envC9A "freebsd" "x64" "Release" true false =
      .error ("KeyError: " ++ "freebsd") ∧
    (build_project envC9A "linux" "x64" "Release" true false).map
      (fun r => r.logs.map LogRecord.fileName) =
      .ok ["build_linux_x64_20250102_120000.log"] ∧
    (build_project envC9B "linux" "x64" "Release" true false).map
      (fun r => r.logs.map LogRecord.fileName) =
      .ok ["build_linux_x64_20250102_120000.log"] ∧
    (build_project envC9A "linux" "x64" "Release" true false).map
      (fun r => r.logs.map LogRecord.content) =
      .ok ["Build for linux-x64\nStatus: Failed\n=== Build Output ===\nfirst attempt output"] ∧
    (build_project envC9B "linux" "x64" "Release" true false).map
      (fun r => r.logs.map LogRecord.content) =
      .ok ["Build for linux-x64\nStatus: Failed\n=== Build Output ===\nsecond attempt output"] ∧
    ("Build for linux-x64\nStatus: Failed\n=== Build Output ===\nfirst attempt output" : String) ≠
      "Build for linux-x64\nStatus: Failed\n=== Build Output ===\nsecond attempt output" :=
  ⟨rfl, rfl, rfl, rfl, rfl, by decide⟩

/-- Environment for the C9 witness. -/
def envC9W : Env :=
  { rmatch := fun _ _ => false, spawnError := none, lines := ["Build FAILED"]
  , returncode := 1, zipError := none, tarballError := none
  , timestamp := "20250102_120000" }

theorem C9_witness :
    List.lookup "windows" runtimes = some "win" ∧
    (∃ r, build_project envC9W "windows" "x86" "Debug" true true = .ok r ∧
      r.logs.length = 1) ∧
    ("20250102_120000" : String) ≠ "20250102_120001" ∧
    log_file_name "windows" "x86" "20250102_120000" ≠
      log_file_name "windows" "x86" "20250102_120001" :=
  ⟨rfl,
    (C9_one_log_per_attempt envC9W "windows" "x86" "Debug" true true "win" rfl).1,
    by decide,
    (C9_one_log_per_attempt envC9W "windows" "x86" "Debug" true true "win" rfl).2
      "20250102_120000" "20250102_120001" (by decide)⟩

theorem calls_snoc_invariant (calls : List (String × Int)) (lp v : Int)
    (c : String × Int)
    (hP : List.Pairwise (fun a b => a.2 ≤ b.2) calls)
    (hB : ∀ x ∈ calls, x.2 ≤ lp) (hlv : lp ≤ v) (hc : c.2 = v) :
    List.Pairwise (fun a b => a.2 ≤ b.2) (calls ++ [c]) ∧
      ∀ x ∈ calls ++ [c], x.2 ≤ v := by
  constructor
  · rw [List.pairwise_append]
    refine ⟨hP, List.pairwise_singleton _ _, ?_⟩
    intro a ha b hb
    rw [List.mem_singleton] at hb
    subst hb
    rw [hc]
    exact le_trans (hB a ha) hlv
  · intro x hx
    rcases List.mem_append.mp hx with h | h
    · exact le_trans (hB x h) hlv
    · rw [List.mem_singleton] at h
      subst h
      rw [hc]

theorem processLine_invariant (m : String → String → Bool) (hc : Bool)
    (s : LoopState) (raw : String)
    (hP : List.Pairwise (fun a b => a.2 ≤ b.2) s.calls)
    (hB : ∀ x ∈ s.calls, x.2 ≤ s.last_progress) :
    List.Pairwise (fun a b => a.2 ≤ b.2) (processLine m hc s raw).calls ∧
      (∀ x ∈ (processLine m hc s raw).calls,
        x.2 ≤ (processLine m hc s raw).last_progress) ∧
      s.last_progress ≤ (processLine m hc s raw).last_progress := by
  cases hc with
  | false => exact ⟨hP, hB, le_refl _⟩
  | true =>
    show _ ∧ _ ∧ _
    simp only [processLine]
    cases parse_build_progress m (pyStrip raw) with
    | none =>
      obtain ⟨h1, h2⟩ := calls_snoc_invariant s.calls s.last_progress s.last_progress
        (pyStrip raw, s.last_progress) hP hB (le_refl _) rfl
      exact ⟨h1, h2, le_refl _⟩
    | some p =>
      by_cases hp : p = -1
      · simp only [hp, if_pos rfl]
        obtain ⟨h1, h2⟩ := calls_snoc_invariant s.calls s.last_progress s.last_progress
          ("Error: " ++ pyStrip raw, s.last_progress) hP hB (le_refl _) rfl
        exact ⟨h1, h2, le_refl _⟩
      · simp only [if_neg hp]
        obtain ⟨h1, h2⟩ := calls_snoc_invariant s.calls s.last_progress
          (max s.last_progress p) (pyStrip raw, max s.last_progress p) hP hB
          (le_max_left _ _) rfl
        exact ⟨h1, h2, le_max_left _ _⟩

theorem processLines_go_invariant (m : String → String → Bool) (hc : Bool) :
    ∀ (lines : List String) (s : LoopState),
      List.Pairwise (fun a b => a.2 ≤ b.2) s.calls →
      (∀ x ∈ s.calls, x.2 ≤ s.last_progress) →
      List.Pairwise (fun a b => a.2 ≤ b.2) (lines.foldl (processLine m hc) s).calls ∧
        (∀ x ∈ (lines.foldl (processLine m hc) s).calls,
          x.2 ≤ (lines.foldl (processLine m hc) s).last_progress) ∧
        s.last_progress ≤ (lines.foldl (processLine m hc) s).last_progress := by
  intro lines
  induction lines with
  | nil => intro s hP hB; exact ⟨hP, hB, le_refl _⟩
  | cons l ls ih =>
    intro s hP hB
    obtain ⟨h1, h2, h3⟩ := processLine_invariant m hc s l hP hB
    obtain ⟨g1, g2, g3⟩ := ih (processLine m hc s l) h1 h2
    exact ⟨g1, g2, le_trans h3 g3⟩

/-- C2 (corrected): within the per-line consuming loop the reported
percentages are non-decreasing: the stored `last_progress` starts at 0, is
updated only as `max(previous, newly-returned)`, never decreases, bounds
every percentage reported so far, and an error line reports the unchanged
stored percentage.  The original claim fails for the full callback
sequence of an attempt: after the loop a successful build reports the
fixed percentages 95 and then 100, and a line matching the 97 or 98
marker makes the 95 report a strict decrease (see the counterexample). -/
theorem C2_loop_percentages_monotone (m : String → String → Bool) (hc : Bool)
    (lines : List String) :
    List.Pairwise (fun a b => a.2 ≤ b.2) (processLines m hc lines).calls ∧
      (∀ x ∈ (processLines m hc lines).calls,
        x.2 ≤ (processLines m hc lines).last_progress) ∧
      (0 : Int) ≤ (processLines m hc lines).last_progress := by
  obtain ⟨h1, h2, h3⟩ := processLines_go_invariant m hc lines ⟨[], 0, []⟩
    (List.Pairwise.nil) (by intro x hx; cases hx)
  exact ⟨h1, h2, h3⟩

/-- Oracle for the C2 witness: only the Build started marker matches. -/
def mC2W : String → String → Bool :=
  fun pat l => pat == "Build started" && l == "Build started"

theorem C2_witness :
    (("Build started", (10 : Int)) ∈ (processLines mC2W true ["Build started"]).calls) ∧
    ("Build started", (10 : Int)).2 ≤ (processLines mC2W true ["Build started"]).last_progress :=
  ⟨by decide,
    (C2_loop_percentages_monotone mC2W true ["Build started"]).2.1 _ (by decide)⟩

/-- Environment for the C2 counterexample: one line matches the 98 marker
(Linking native binary), the build succeeds, so the callback sequence is
98, then the fixed packaging report 95 — a decrease — then 100. -/
def envC2X : Env :=
  { rmatch := fun pat l =>
      pat == "Linking native binary" && l == "Linking native binary"
  , spawnError := none, lines := ["Linking native binary"], returncode := 0
  , zipError := none, tarballError := none, timestamp := "20250102_130000" }

theorem C2_counterexample :
    (build_project envC2X "linux" "x64" "Release" true true).map
      (fun r => r.calls.map (·.2)) = .ok [98, 95, 100] ∧
    ¬ List.Pairwise (fun a b : Int => a ≤ b) [98, 95, 100] := by
  refine ⟨rfl, ?_⟩
  intro h
  have h95 := (List.pairwise_cons.mp h).1 95 (List.mem_cons_self 95 [100])
  omega

/-- Cross-stream interleavings: `Merge a b c` holds when `c` interleaves
the two line streams `a` and `b`, preserving the relative order of each
stream. -/
inductive Merge : List String → List String → List String → Prop
  | nil : Merge [] [] []
  | left : ∀ {a : String} {as bs cs : List String},
      Merge as bs cs → Merge (a :: as) bs (a :: cs)
  | right : ∀ {b : String} {as bs cs : List String},
      Merge as bs cs → Merge as (b :: bs) (b :: cs)

theorem Merge.length_eq {as bs cs : List String} (h : Merge as bs cs) :
    cs.length = as.length + bs.length := by
  induction h with
  | nil => rfl
  | left _ ih => simp [List.length_cons, ih]; omega
  | right _ ih => simp [List.length_cons, ih]; omega

theorem Merge.sublist_left {as bs cs : List String} (h : Merge as bs cs) :
    as.Sublist cs := by
  induction h with
  | nil => exact List.Sublist.refl []
  | left _ ih => exact List.Sublist.cons₂ _ ih
  | right _ ih => exact List.Sublist.cons _ ih

theorem Merge.sublist_right {as bs cs : List String} (h : Merge as bs cs) :
    bs.Sublist cs := by
  induction h with
  | nil => exact List.Sublist.refl []
  | left _ ih => exact List.Sublist.cons _ ih
  | right _ ih => exact List.Sublist.cons₂ _ ih

theorem Merge.snoc_left {as bs cs : List String} (x : String)
    (h : Merge as bs cs) : Merge (as ++ [x]) bs (cs ++ [x]) := by
  induction h with
  | nil => exact Merge.left Merge.nil
  | left h ih => exact Merge.left ih
  | right h ih => exact Merge.right ih

theorem Merge.snoc_right {as bs cs : List String} (x : String)
    (h : Merge as bs cs) : Merge as (bs ++ [x]) (cs ++ [x]) := by
  induction h with
  | nil => exact Merge.right Merge.nil
  | left h ih => exact Merge.left ih
  | right h ih => exact Merge.right ih

/-- State of the output pump of `BuildSystem.build_project`
(src/build.py lines 170-207): `sOut`/`sErr` are the lines the two
`enqueue_output` reader threads have not yet pushed, `q` the shared
`queue.Queue`, `exited` whether `process.poll()` returns non-None,
`consumed` the lines taken by the consuming loop, and `done` whether the
loop has executed `break`. -/
structure PumpState where
  sOut : List String
  sErr : List String
  q : List String
  exited : Bool
  consumed : List String
  done : Bool
deriving DecidableEq

/-- Scheduler events for the pump: one reader thread pushes its next line
(`pushOut`/`pushErr`), the process exits (`procExit`), the consuming loop
dequeues a line (`consume`, the `queue.get` success case), or the
consuming loop times out on an empty queue (`timeoutPoll`, the
`queue.Empty` case: `break` when the process has exited, otherwise
`continue`). -/
inductive PumpAct
  | pushOut
  | pushErr
  | procExit
  | consume
  | timeoutPoll
deriving DecidableEq

/-- One scheduler step of the pump (src/build.py lines 174-193). -/
def pumpStep (s : PumpState) (a : PumpAct) : PumpState :=
  match a with
  | .pushOut =>
    match s.sOut with
    | [] => s
    | l :: rest => { s with sOut := rest, q := s.q ++ [l] }
  | .pushErr =>
    match s.sErr with
    | [] => s
    | l :: rest => { s with sErr := rest, q := s.q ++ [l] }
  | .procExit => { s with exited := true }
  | .consume =>
    if s.done then s
    else
      match s.q with
      | [] => s
      | l :: rest => { s with q := rest, consumed := s.consumed ++ [l] }
  | .timeoutPoll =>
    if s.done then s
    else
      match s.q with
      | _ :: _ => s
      | [] => if s.exited then { s with done := true } else s

/-- Initial pump state: both streams full, queue empty, process running. -/
def pumpInit (outLines errLines : List String) : PumpState :=
  { sOut := outLines, sErr := errLines, q := [], exited := false
  , consumed := [], done := false }

/-- A whole scheduled run of the pump. -/
def pumpRun (s : PumpState) (acts : List PumpAct) : PumpState :=
  acts.foldl pumpStep s

/-- Pump invariant: the lines already taken from the streams form a merge
of stream prefixes, and `consumed ++ q` is exactly that merge. -/
def PumpInv (out0 err0 : List String) (s : PumpState) : Prop :=
  ∃ a b, out0 = a ++ s.sOut ∧ err0 = b ++ s.sErr ∧ Merge a b (s.consumed ++ s.q)

theorem pumpStep_inv (out0 err0 : List String) (s : PumpState) (act : PumpAct)
    (h : PumpInv out0 err0 s) : PumpInv out0 err0 (pumpStep s act) := by
  obtain ⟨a, b, ha, hb, hm⟩ := h
  cases act with
  | pushOut =>
    cases hso : s.sOut with
    | nil =>
      have hstep : pumpStep s .pushOut = s := by simp [pumpStep, hso]
      rw [hstep]
      exact ⟨a, b, ha, hb, hm⟩
    | cons l rest =>
      have hstep : pumpStep s .pushOut = { s with sOut := rest, q := s.q ++ [l] } := by
        simp [pumpStep, hso]
      rw [hstep]
      refine ⟨a ++ [l], b, ?_, hb, ?_⟩
      · rw [ha, hso]
        simp
      · have h2 := Merge.snoc_left l hm
        simpa [List.append_assoc] using h2
  | pushErr =>
    cases hse : s.sErr with
    | nil =>
      have hstep : pumpStep s .pushErr = s := by simp [pumpStep, hse]
      rw [hstep]
      exact ⟨a, b, ha, hb, hm⟩
    | cons l rest =>
      have hstep : pumpStep s .pushErr = { s with sErr := rest, q := s.q ++ [l] } := by
        simp [pumpStep, hse]
      rw [hstep]
      refine ⟨a, b ++ [l], ha, ?_, ?_⟩
      · rw [hb, hse]
        simp
      · have h2 := Merge.snoc_right l hm
        simpa [List.append_assoc] using h2
  | procExit => exact ⟨a, b, ha, hb, hm⟩
  | consume =>
    by_cases hd : s.done
    · have hstep : pumpStep s .consume = s := by simp [pumpStep, hd]
      rw [hstep]
      exact ⟨a, b, ha, hb, hm⟩
    · cases hq : s.q with
      | nil =>
        have hstep : pumpStep s .consume = s := by simp [pumpStep, hd, hq]
        rw [hstep]
        exact ⟨a, b, ha, hb, hm⟩
      | cons l rest =>
        have hstep : pumpStep s .consume =
            { s with q := rest, consumed := s.consumed ++ [l] } := by
          simp [pumpStep, hd, hq]
        rw [hstep]
        refine ⟨a, b, ha, hb, ?_⟩
        rw [hq] at hm
        simpa [List.append_assoc] using hm
  | timeoutPoll =>
    by_cases hd : s.done
    · have hstep : pumpStep s .timeoutPoll = s := by simp [pumpStep, hd]
      rw [hstep]
      exact ⟨a, b, ha, hb, hm⟩
    · cases hq : s.q with
      | cons l rest =>
        have hstep : pumpStep s .timeoutPoll = s := by simp [pumpStep, hd, hq]
        rw [hstep]
        exact ⟨a, b, ha, hb, hm⟩
      | nil =>
        by_cases he : s.exited
        · have hstep : pumpStep s .timeoutPoll = { s with done := true } := by
            simp [pumpStep, hd, hq, he]
          rw [hstep]
          exact ⟨a, b, ha, hb, hm⟩
        · have hstep : pumpStep s .timeoutPoll = s := by simp [pumpStep, hd, hq, he]
          rw [hstep]
          exact ⟨a, b, ha, hb, hm⟩

theorem pumpRun_inv (out0 err0 : List String) :
    ∀ (acts : List PumpAct) (s : PumpState),
      PumpInv out0 err0 s → PumpInv out0 err0 (pumpRun s acts) := by
  intro acts
  induction acts with
  | nil => intro s h; exact h
  | cons act rest ih =>
    intro s h
    exact ih (pumpStep s act) (pumpStep_inv out0 err0 s act h)

/-- C7 (corrected): for every scheduled run of the pump in which the
consuming loop has concluded AND both reader threads have pushed all their
lines and the queue is empty, the consumed sequence is an interleaving of
the two streams: exactly N = |stdout| + |stderr| lines are delivered, none
lost, none duplicated, with per-stream relative order preserved.  The
original claim fails without the full-drain condition: the loop breaks as
soon as a `queue.get` times out on an empty queue after process exit, so
a schedule in which a reader thread is delayed past one timeout loses the
lines that thread pushes afterwards (see the counterexample). -/
theorem C7_pump_delivery (out0 err0 : List String) (acts : List PumpAct)
    (hdone : (pumpRun (pumpInit out0 err0) acts).done = true)
    (hout : (pumpRun (pumpInit out0 err0) acts).sOut = [])
    (herr : (pumpRun (pumpInit out0 err0) acts).sErr = [])
    (hq : (pumpRun (pumpInit out0 err0) acts).q = []) :
    Merge out0 err0 (pumpRun (pumpInit out0 err0) acts).consumed ∧
      (pumpRun (pumpInit out0 err0) acts).consumed.length =
        out0.length + err0.length ∧
      out0.Sublist (pumpRun (pumpInit out0 err0) acts).consumed ∧
      err0.Sublist (pumpRun (pumpInit out0 err0) acts).consumed := by
  have hinv := pumpRun_inv out0 err0 acts (pumpInit out0 err0)
    ⟨[], [], by simp [pumpInit], by simp [pumpInit],
      by simpa [pumpInit] using Merge.nil⟩
  obtain ⟨a, b, ha, hb, hm⟩ := hinv
  rw [hout, List.append_nil] at ha
  rw [herr, List.append_nil] at hb
  rw [hq, List.append_nil] at hm
  subst ha
  subst hb
  exact ⟨hm, hm.length_eq, hm.sublist_left, hm.sublist_right⟩

/-- The final state of the C7 counterexample run: the loop has concluded
(`done`), the reader pushed its line after the post-exit empty poll, and
the line sits in the queue forever undelivered. -/
def pumpLossState : PumpState :=
  { sOut := [], sErr := [], q := ["late line"], exited := true
  , consumed := [], done := true }

theorem C7_counterexample :
    pumpRun (pumpInit ["late line"] [])
      [.procExit, .timeoutPoll, .pushOut, .consume] = pumpLossState ∧
    pumpLossState.done = true ∧ pumpLossState.sOut = [] ∧
    pumpLossState.sErr = [] ∧ pumpLossState.consumed.length = 0 ∧
    (["late line"] : List String).length + ([] : List String).length = 1 :=
  ⟨rfl, rfl, rfl, rfl, rfl, rfl⟩

theorem C7_witness :
    ((pumpRun (pumpInit ["out line"] ["err line"])
      [.pushOut, .consume, .pushErr, .consume, .procExit, .timeoutPoll]).done = true) ∧
    ((pumpRun (pumpInit ["out line"] ["err line"])
      [.pushOut, .consume, .pushErr, .consume, .procExit, .timeoutPoll]).q = []) ∧
    (Merge ["out line"] ["err line"]
      (pumpRun (pumpInit ["out line"] ["err line"])
        [.pushOut, .consume, .pushErr, .consume, .procExit, .timeoutPoll]).consumed ∧
      (pumpRun (pumpInit ["out line"] ["err line"])
        [.pushOut, .consume, .pushErr, .consume, .procExit, .timeoutPoll]).consumed.length =
        (["out line"] : List String).length + (["err line"] : List String).length ∧
      (["out line"] : List String).Sublist
        (pumpRun (pumpInit ["out line"] ["err line"])
          [.pushOut, .consume, .pushErr, .consume, .procExit, .timeoutPoll]).consumed ∧
      (["err line"] : List String).Sublist
        (pumpRun (pumpInit ["out line"] ["err line"])
          [.pushOut, .consume, .pushErr, .consume, .procExit, .timeoutPoll]).consumed) :=
  ⟨rfl, rfl,
    C7_pump_delivery ["out line"] ["err line"]
      [.pushOut, .consume, .pushErr, .consume, .procExit, .timeoutPoll]
      rfl rfl rfl rfl⟩
